import Mathlib

/-!
Verification of the RagOpenGui retrieval core against its specification.

The development shallowly embeds the repository's retrieval core:

* `rag_excel/utils/vector_utils.py` — `ensure_vector_store_path`;
* `rag_excel/utils/vector_store.py` — `VectorStoreManager` (`load`,
  `create_or_update`, `_create_new_vector_store`, `similarity_search`);
* `rag_excel/utils/enhanced_excel_loader.py` — `get_chunked_documents`;
* `rag_excel/utils/rag_chain.py` — `RagChain.answer_question`.

The external collaborators (the FAISS index, the OpenAI embedding gateway,
the LangChain text splitter and QA chain) are modelled abstractly through an
environment record: the environment fixes what each external call returns or
whether it raises, and the embedded functions reproduce exactly the control
flow of the Python source over that environment.  Filesystem state is
abstracted to the facts the code observes: whether the vector-store directory
exists, whether each of the two companion artifacts (`index.faiss`,
`index.pkl`) is present, and the logical content (list of stored chunks)
backing them.  A Python method that can let an exception escape is embedded
as a function returning the post state together with an `Option String`
carrying the escaped exception; a method that catches every exception is
embedded as a total function.  Distances and similarity scores are modelled
as rationals.
-/

namespace RagExcel

/-- A metadata value: the scalar shapes the loader actually stores. -/
inductive MetaVal where
  | str (s : String)
  | nat (n : Nat)
  | bool (b : Bool)
  deriving DecidableEq, Repr

/-- Metadata: an ordered key/value mapping, as built by the loaders. -/
abbrev Metadata := List (String × MetaVal)

/-- A LangChain `Document`: `page_content` plus `metadata`. -/
structure Doc where
  page_content : String
  metadata : Metadata
  deriving DecidableEq, Repr

/-- One entry of the list returned by `VectorStoreManager.similarity_search`
(`vector_store.py` lines 208-212): the dict with keys `content`, `metadata`
and `similarity`. -/
structure SearchResult where
  content : String
  metadata : Metadata
  similarity : ℚ
  deriving DecidableEq, Repr

/-- Abstract state observed and mutated by the vector-store code: whether the
configured directory exists, whether each companion artifact is present, the
logical chunk content backing the persisted index (meaningful when both
artifacts are present), and the in-memory index `self.vector_store`
(`none` models Python `None`). -/
structure SysState where
  dirExists : Bool
  faissPresent : Bool
  pklPresent : Bool
  stored : List Doc
  mem : Option (List Doc)
  deriving DecidableEq, Repr

/-- Environment fixing the behaviour of the external collaborators during one
scenario: the (document, raw distance) pairs FAISS returns for the query at
hand, whether `similarity_search_with_score` raises (embedding-gateway
failure on the read path), whether `FAISS.load_local` raises (deserialization
error), whether embedding during `FAISS.from_documents`/`add_documents`
raises (embedding-gateway failure on the write path), whether
`FAISS.from_documents` rejects an empty chunk list (behaviour of the external
library, not fixed by this repository's code), and the result of
`RecursiveCharacterTextSplitter.split_documents`. -/
structure Env where
  searchResults : List (Doc × ℚ)
  searchFails : Bool
  loadFails : Bool
  embedFails : Bool
  emptyFromDocsFails : Bool
  splitDocs : List Doc → List Doc

/-- Embeds `ensure_vector_store_path` (`vector_utils.py` lines 17-29): creates the
vector-store directory when it does not exist, otherwise leaves it alone. -/
def ensure_vector_store_path (s : SysState) : SysState :=
  { s with dirExists := true }

/-- Embeds `VectorStoreManager.load` (`vector_store.py` lines 139-171).  It first
ensures the directory exists, then requires both `index.faiss` and
`index.pkl`; on success it deserializes the persisted content into
`self.vector_store` and returns `True`; on missing artifacts or a
deserialization error it sets `self.vector_store = None` and returns
`False` (every exception is caught, so the embedding is total). -/
def load (env : Env) (s : SysState) : Bool × SysState :=
  let s1 := ensure_vector_store_path s
  if s1.faissPresent && s1.pklPresent then
    if env.loadFails then (false, { s1 with mem := none })
    else (true, { s1 with mem := some s1.stored })
  else (false, { s1 with mem := none })

/-- Embeds `VectorStoreManager._create_new_vector_store` (`vector_store.py` lines
128-137): `FAISS.from_documents(chunks, embeddings)` followed by
`save_local`.  If the embedding gateway fails, or the external library
rejects the empty chunk list, the exception escapes this helper (second
component `some e`); otherwise the new index is stored in memory and both
artifacts are written. -/
def _create_new_vector_store (env : Env) (s : SysState) (chunks : List Doc) :
    SysState × Option String :=
  if env.embedFails then (s, some "EmbeddingProviderError")
  else if chunks.isEmpty && env.emptyFromDocsFails then (s, some "IndexError")
  else
    ({ s with mem := some chunks, stored := chunks,
              faissPresent := true, pklPresent := true }, none)

/-- Embeds `VectorStoreManager.create_or_update` (`vector_store.py` lines 75-126).
The documents are split into chunks, the directory is ensured, and then:
if both artifacts exist and `load()` succeeds, the chunks are appended via
`add_documents` and the combined index is saved; if `load()` fails the
index is rebuilt from the chunks alone; if the artifacts are absent a new
index is built.  The surrounding `except` block logs and then `raise`s
(line 126), so an exception from any step escapes to the caller: the second
component is `some e` exactly when the Python call raises. -/
def create_or_update (env : Env) (s : SysState) (documents : List Doc) :
    SysState × Option String :=
  let chunks := env.splitDocs documents
  let s1 := ensure_vector_store_path s
  if s1.faissPresent && s1.pklPresent then
    match load env s1 with
    | (true, s2) =>
        if env.embedFails then (s2, some "EmbeddingProviderError")
        else
          let newIdx := s2.mem.getD [] ++ chunks
          ({ s2 with mem := some newIdx, stored := newIdx }, none)
    | (false, s2) => _create_new_vector_store env s2 chunks
  else
    _create_new_vector_store env s1 chunks

/-- The filtering loop of `similarity_search` (`vector_store.py` lines
200-212): for each `(doc, score)` pair in index order, compute
`similarity = 1.0 / (1.0 + score)` and keep the result exactly when
`similarity >= threshold`, preserving order. -/
def processScores (docsWithScores : List (Doc × ℚ)) (threshold : ℚ) :
    List SearchResult :=
  docsWithScores.filterMap fun ds =>
    if threshold ≤ 1 / (1 + ds.2) then
      some { content := ds.1.page_content
             metadata := ds.1.metadata
             similarity := 1 / (1 + ds.2) }
    else none

/-- The body of `similarity_search` after the index is available in memory:
`similarity_search_with_score` (which raises on an embedding-gateway
failure, caught by the method's `except` and converted to `[]`) followed by
the threshold filter. -/
def runSearch (env : Env) (s : SysState) (threshold : ℚ) :
    List SearchResult × SysState :=
  if env.searchFails then ([], s)
  else (processScores env.searchResults threshold, s)

/-- Embeds `VectorStoreManager.similarity_search` (`vector_store.py` lines
173-219): loads on demand when `self.vector_store` is `None`, returns `[]`
when the load fails, otherwise queries the index and filters by the
threshold; every exception is caught and converted to `[]`, so the
embedding is total.  `query` and `k` are forwarded to the external index,
whose response for them is fixed by `env.searchResults`. -/
def similarity_search (env : Env) (s : SysState) (query : String) (k : Nat)
    (threshold : ℚ) : List SearchResult × SysState :=
  match s.mem with
  | none =>
      match load env s with
      | (false, s1) => ([], s1)
      | (true, s1) => runSearch env s1 threshold
  | some _ => runSearch env s threshold

/-- Embeds `EnhancedExcelLoader.get_chunked_documents` (`enhanced_excel_loader.py`
lines 216-260), parameterized by the external
`RecursiveCharacterTextSplitter.split_text` and by `self.chunk_size`: a
document whose text length is at most `chunk_size * 2` is kept intact;
otherwise its text is split and each piece becomes a document carrying the
parent metadata plus `chunk_index` (the 0-based enumeration position),
`total_chunks` and `is_chunked`. -/
def get_chunked_documents (splitText : String → List String)
    (chunk_size : Nat) (documents : List Doc) : List Doc :=
  (documents.map fun doc =>
    if doc.page_content.length ≤ chunk_size * 2 then [doc]
    else
      let chunks := splitText doc.page_content
      chunks.enum.map fun ic =>
        { page_content := ic.2
          metadata := doc.metadata ++
            [("chunk_index", MetaVal.nat ic.1),
             ("total_chunks", MetaVal.nat chunks.length),
             ("is_chunked", MetaVal.bool true)] }).flatten

/-- The `{answer, sources}` dict produced by `RagChain.answer_question`. -/
structure RagAnswer where
  answer : String
  sources : List (String × Metadata)
  deriving DecidableEq, Repr

/-- Environment for the QA chain external call in `answer_question`: whether
`self.qa_chain({"query": question})` raises, the exception text if so, and
otherwise the returned `result` text and `source_documents`. -/
structure ChainEnv where
  qaFails : Bool
  qaError : String
  qaResult : String
  qaSources : List Doc

/-- Embeds `RagChain.answer_question` (`rag_chain.py` lines 102-163).  When
`self.qa_chain` is not initialized it returns the fixed Italian error
answer with no sources; otherwise it runs the chain, and any exception is
caught and converted into the Italian apology answer with no sources.  The
embedding is total: no exception escapes. -/
def answer_question (env : ChainEnv) (qa_chain_initialized : Bool)
    (question : String) : RagAnswer :=
  if !qa_chain_initialized then
    { answer := "Errore: Il sistema RAG non è pronto.", sources := [] }
  else if env.qaFails then
    { answer := "Mi dispiace, si è verificato un errore durante l'elaborazione della tua domanda: "
        ++ env.qaError
      sources := [] }
  else
    { answer := env.qaResult
      sources := env.qaSources.map fun d => (d.page_content, d.metadata) }

/-- Boolean prefix test used to state claims about the shape of answer
strings. -/
def strHasPrefix (p s : String) : Bool :=
  decide (s.data.take p.data.length = p.data)

/-! ### Concrete scenarios used by witnesses and counterexamples -/

/-- The state before any indexing: no directory, no artifacts, nothing in
memory. -/
def emptyState : SysState :=
  { dirExists := false, faissPresent := false, pklPresent := false,
    stored := [], mem := none }

/-- A sample sheet-level document. -/
def docVendite : Doc :=
  { page_content := "# Scheda: Vendite"
    metadata := [("source", MetaVal.str "dati.xlsx"),
                 ("sheet_name", MetaVal.str "Vendite")] }

/-- A second sample document. -/
def docClienti : Doc :=
  { page_content := "# Scheda: Clienti"
    metadata := [("source", MetaVal.str "dati.xlsx"),
                 ("sheet_name", MetaVal.str "Clienti")] }

/-- A fault-free environment whose splitter leaves documents whole and whose
index returns `docVendite` at distance 0 and `docClienti` at distance 1. -/
def envOk : Env :=
  { searchResults := [(docVendite, 0), (docClienti, 1)]
    searchFails := false, loadFails := false, embedFails := false,
    emptyFromDocsFails := false, splitDocs := fun ds => ds }

/-- Variant of `envOk` where the external library rejects an empty chunk list in
`FAISS.from_documents`. -/
def envRejectEmpty : Env :=
  { envOk with emptyFromDocsFails := true }

/-- Variant of `envOk` where the embedding gateway fails on the write path. -/
def envEmbedFail : Env :=
  { envOk with embedFails := true }

/-- Variant of `envOk` where the embedding gateway fails on the read path. -/
def envSearchFail : Env :=
  { envOk with searchFails := true }

/-- A state whose persisted index holds one chunk and is already loaded. -/
def loadedState : SysState :=
  { dirExists := true, faissPresent := true, pklPresent := true,
    stored := [docVendite], mem := some [docVendite] }

/-- A QA-chain environment whose single call succeeds. -/
def chainEnvOk : ChainEnv :=
  { qaFails := false, qaError := "", qaResult := "La risposta.",
    qaSources := [docVendite] }

/-- A QA-chain environment whose single call raises. -/
def chainEnvFail : ChainEnv :=
  { qaFails := true, qaError := "rate limit", qaResult := "",
    qaSources := [] }

/-! ### Helper lemmas -/

/-- The list returned by `similarity_search` is the threshold filter of the
index response exactly when an index is (or becomes) available in memory and
the external search call does not fail; in every other case it is `[]`. -/
theorem similarity_search_fst (env : Env) (s : SysState) (query : String)
    (k : Nat) (t : ℚ) :
    (similarity_search env s query k t).1 =
      if (s.mem.isSome || s.faissPresent && s.pklPresent && !env.loadFails)
          && !env.searchFails then
        processScores env.searchResults t
      else [] := by
  cases hm : s.mem <;>
  cases hf : s.faissPresent <;>
  cases hp : s.pklPresent <;>
  cases hl : env.loadFails <;>
  cases hs : env.searchFails <;>
  simp [similarity_search, load, ensure_vector_store_path, runSearch,
        hm, hf, hp, hl, hs]

/-- Elements of `processScores` come from an input pair, carry exactly the
transformed similarity `1/(1 + distance)`, and meet the threshold. -/
theorem mem_processScores {l : List (Doc × ℚ)} {t : ℚ} {r : SearchResult}
    (h : r ∈ processScores l t) :
    t ≤ r.similarity ∧ ∃ p ∈ l, r.content = p.1.page_content ∧
      r.metadata = p.1.metadata ∧ r.similarity = 1 / (1 + p.2) := by
  rw [processScores, List.mem_filterMap] at h
  obtain ⟨p, hp, heq⟩ := h
  by_cases hc : t ≤ 1 / (1 + p.2)
  · simp only [hc, if_pos] at heq
    cases heq
    exact ⟨hc, p, hp, rfl, rfl, rfl⟩
  · simp only [hc, if_neg, not_false_eq_true, reduceIte] at heq
    exact Option.noConfusion heq

/-- A filter that lets through no more elements, and transforms the kept
ones identically, yields a sublist. -/
theorem filterMap_sublist_of_imp {α β : Type} (f g : α → Option β)
    (l : List α) (h : ∀ a b, f a = some b → g a = some b) :
    (l.filterMap f).Sublist (l.filterMap g) := by
  induction l with
  | nil => simp
  | cons x l ih =>
      cases hfx : f x with
      | none =>
          cases hgx : g x with
          | none => simpa [List.filterMap_cons, hfx, hgx] using ih
          | some c => simpa [List.filterMap_cons, hfx, hgx] using ih.cons c
      | some b =>
          have hgx := h x b hfx
          simpa [List.filterMap_cons, hfx, hgx] using ih.cons₂ b

/-- Lowering the threshold only adds results: the higher-threshold filter is
a sublist of the lower-threshold one. -/
theorem processScores_sublist (l : List (Doc × ℚ)) {t1 t2 : ℚ}
    (h : t1 ≤ t2) :
    (processScores l t2).Sublist (processScores l t1) := by
  rw [processScores, processScores]
  refine filterMap_sublist_of_imp _ _ l ?_
  intro p r heq
  by_cases hc2 : t2 ≤ 1 / (1 + p.2)
  · rw [if_pos hc2] at heq
    have hc1 : t1 ≤ 1 / (1 + p.2) := le_trans h hc2
    rw [if_pos hc1]
    exact heq
  · rw [if_neg hc2] at heq
    exact Option.noConfusion heq

/-- If all scores in a list are below threshold, `processScores` drops
everything. -/
theorem processScores_eq_nil {l : List (Doc × ℚ)} {t : ℚ}
    (h : ∀ p ∈ l, 1 / (1 + p.2) < t) :
    processScores l t = [] := by
  rw [processScores, List.filterMap_eq_nil_iff]
  intro p hp
  rw [if_neg (not_le.mpr (h p hp))]

/-- When the index response is distance-ascending with nonnegative
distances, the filtered results are sorted by descending similarity. -/
theorem processScores_sorted {l : List (Doc × ℚ)} {t : ℚ}
    (hsorted : l.Pairwise (fun a b => a.2 ≤ b.2))
    (hnonneg : ∀ p ∈ l, 0 ≤ p.2) :
    (processScores l t).Pairwise (fun a b => b.similarity ≤ a.similarity) := by
  rw [processScores, List.pairwise_filterMap]
  refine (List.pairwise_iff_forall_sublist.2 ?_)
  intro a b hsub
  have hmem := hsub.subset
  have ha : a ∈ l := hmem (by simp)
  have hb : b ∈ l := hmem (by simp)
  have hab : a.2 ≤ b.2 :=
    List.pairwise_iff_forall_sublist.1 hsorted hsub
  intro x hx y hy
  by_cases hca : t ≤ 1 / (1 + a.2)
  · by_cases hcb : t ≤ 1 / (1 + b.2)
    · rw [if_pos hca, Option.mem_def] at hx
      rw [if_pos hcb, Option.mem_def] at hy
      injection hx with hx
      injection hy with hy
      subst hx
      subst hy
      have h0a : (0 : ℚ) < 1 + a.2 := by
        have := hnonneg a ha
        linarith
      have hle : 1 + a.2 ≤ 1 + b.2 := by linarith
      simpa using one_div_le_one_div_of_le h0a hle
    · rw [if_neg hcb] at hy
      exact absurd hy (by simp)
  · rw [if_neg hca] at hx
    exact absurd hx (by simp)

/-- Variant of `envOk` where `FAISS.load_local` raises a deserialization error. -/
def envLoadFail : Env :=
  { envOk with loadFails := true }

/-- A state with both artifacts persisted but nothing loaded in memory. -/
def bothArtifactsState : SysState :=
  { dirExists := true, faissPresent := true, pklPresent := true,
    stored := [docVendite], mem := none }

/-- A state with `index.faiss` present but `index.pkl` missing. -/
def faissOnlyState : SysState :=
  { dirExists := true, faissPresent := true, pklPresent := false,
    stored := [], mem := none }

/-! ### Claim theorems -/

/-- C3: every result returned by `similarity_search` is built from a pair
returned by the underlying index with similarity computed exactly as
`1/(1 + distance)`, every returned result meets the threshold, and — given
that the index returns its pairs in ascending-distance order with
nonnegative distances — the returned list is sorted by descending
similarity, i.e. the index order is preserved. -/
theorem similarity_search_transform_threshold_sorted
    (env : Env) (s : SysState) (query : String) (k : Nat) (t : ℚ)
    (hsorted : env.searchResults.Pairwise (fun a b => a.2 ≤ b.2))
    (hnonneg : ∀ p ∈ env.searchResults, 0 ≤ p.2) :
    (∀ r ∈ (similarity_search env s query k t).1,
        t ≤ r.similarity ∧
        ∃ p ∈ env.searchResults, r.content = p.1.page_content ∧
          r.metadata = p.1.metadata ∧ r.similarity = 1 / (1 + p.2)) ∧
    (similarity_search env s query k t).1.Pairwise
      (fun a b => b.similarity ≤ a.similarity) := by
  rw [similarity_search_fst]
  cases hb : (s.mem.isSome || s.faissPresent && s.pklPresent && !env.loadFails)
      && !env.searchFails
  · simp
  · simp only [if_pos]
    exact ⟨fun r hr => mem_processScores hr,
           processScores_sorted hsorted hnonneg⟩

/-- Witness for C3 at a loaded one-entry state: the index answers with
distances `0` and `1`, both hypotheses hold, and the conclusion follows by
the theorem. -/
theorem similarity_search_transform_threshold_sorted_witness :
    envOk.searchResults.Pairwise (fun a b => a.2 ≤ b.2) ∧
    (∀ p ∈ envOk.searchResults, 0 ≤ p.2) ∧
    ((∀ r ∈ (similarity_search envOk loadedState "fatturato" 5 (1/2)).1,
        (1 : ℚ)/2 ≤ r.similarity ∧
        ∃ p ∈ envOk.searchResults, r.content = p.1.page_content ∧
          r.metadata = p.1.metadata ∧ r.similarity = 1 / (1 + p.2)) ∧
     (similarity_search envOk loadedState "fatturato" 5 (1/2)).1.Pairwise
       (fun a b => b.similarity ≤ a.similarity)) :=
  ⟨by decide, by decide,
   similarity_search_transform_threshold_sorted envOk loadedState
     "fatturato" 5 (1/2) (by decide) (by decide)⟩

/-- C4: `similarity_search` returns `[]` — it does not raise — when the
persisted index is absent, when the load fails with a deserialization
error, when no index result clears the threshold, and when the external
search (embedding) call fails; totality of the embedded function reflects
that the method catches every exception. -/
theorem similarity_search_empty_on_absent_failed_or_filtered
    (env : Env) (s : SysState) (query : String) (k : Nat) (t : ℚ) :
    (s.mem = none → (s.faissPresent && s.pklPresent) = false →
      (similarity_search env s query k t).1 = []) ∧
    (s.mem = none → env.loadFails = true →
      (similarity_search env s query k t).1 = []) ∧
    ((∀ p ∈ env.searchResults, 1 / (1 + p.2) < t) →
      (similarity_search env s query k t).1 = []) ∧
    (env.searchFails = true →
      (similarity_search env s query k t).1 = []) := by
  refine ⟨?_, ?_, ?_, ?_⟩
  · intro hm hf
    rw [similarity_search_fst]
    simp [hm, hf]
  · intro hm hl
    rw [similarity_search_fst]
    simp [hm, hl]
  · intro hall
    rw [similarity_search_fst]
    cases hb : (s.mem.isSome || s.faissPresent && s.pklPresent && !env.loadFails)
        && !env.searchFails
    · simp
    · simp only [if_pos]
      exact processScores_eq_nil hall
  · intro hs
    rw [similarity_search_fst]
    simp [hs]

/-- Witness for C4: all four empty-result scenarios at concrete states —
no artifacts, deserialization failure, a threshold above every similarity,
and a failing search call. -/
theorem similarity_search_empty_on_absent_failed_or_filtered_witness :
    (similarity_search envOk emptyState "q" 5 (1/2)).1 = [] ∧
    (similarity_search envLoadFail bothArtifactsState "q" 5 (1/2)).1 = [] ∧
    (similarity_search envOk loadedState "q" 5 2).1 = [] ∧
    (similarity_search envSearchFail loadedState "q" 5 (1/2)).1 = [] :=
  ⟨(similarity_search_empty_on_absent_failed_or_filtered envOk emptyState
      "q" 5 (1/2)).1 rfl rfl,
   (similarity_search_empty_on_absent_failed_or_filtered envLoadFail
      bothArtifactsState "q" 5 (1/2)).2.1 rfl rfl,
   (similarity_search_empty_on_absent_failed_or_filtered envOk loadedState
      "q" 5 2).2.2.1 (by
        intro p hp
        rcases (by simpa [envOk] using hp :
            p = (docVendite, (0 : ℚ)) ∨ p = (docClienti, (1 : ℚ))) with rfl | rfl <;>
          norm_num),
   (similarity_search_empty_on_absent_failed_or_filtered envSearchFail
      loadedState "q" 5 (1/2)).2.2.2 rfl⟩

/-- C7: `load` on a directory holding exactly one of the two companion
artifacts returns `False` and clears the in-memory index reference. -/
theorem load_partial_artifacts_false_and_cleared (env : Env) (s : SysState)
    (h : s.faissPresent = true ∧ s.pklPresent = false ∨
         s.faissPresent = false ∧ s.pklPresent = true) :
    (load env s).1 = false ∧ (load env s).2.mem = none := by
  rcases h with ⟨h1, h2⟩ | ⟨h1, h2⟩ <;>
    simp [load, ensure_vector_store_path, h1, h2]

/-- Witness for C7 at a state holding only `index.faiss`. -/
theorem load_partial_artifacts_false_and_cleared_witness :
    (faissOnlyState.faissPresent = true ∧ faissOnlyState.pklPresent = false ∨
     faissOnlyState.faissPresent = false ∧ faissOnlyState.pklPresent = true) ∧
    (load envOk faissOnlyState).1 = false ∧
    (load envOk faissOnlyState).2.mem = none :=
  ⟨by decide,
   load_partial_artifacts_false_and_cleared envOk faissOnlyState
     (Or.inl ⟨rfl, rfl⟩)⟩

/-- C8: with the environment, state, query and `k` fixed, the results at a
higher threshold `t2` form a sublist — same order, nothing new interleaved
— and hence a subset of the results at any lower threshold `t1 < t2`. -/
theorem similarity_search_threshold_monotone (env : Env) (s : SysState)
    (query : String) (k : Nat) {t1 t2 : ℚ} (h : t1 < t2) :
    ((similarity_search env s query k t2).1).Sublist
      ((similarity_search env s query k t1).1) ∧
    ∀ r ∈ (similarity_search env s query k t2).1,
      r ∈ (similarity_search env s query k t1).1 := by
  have hsub : ((similarity_search env s query k t2).1).Sublist
      ((similarity_search env s query k t1).1) := by
    rw [similarity_search_fst, similarity_search_fst]
    cases hb : (s.mem.isSome || s.faissPresent && s.pklPresent && !env.loadFails)
        && !env.searchFails
    · simp
    · simp only [if_pos]
      exact processScores_sublist env.searchResults (le_of_lt h)
  exact ⟨hsub, fun r hr => hsub.subset hr⟩

/-- Witness for C8 with thresholds `2/5 < 3/4` at a loaded state. -/
theorem similarity_search_threshold_monotone_witness :
    (2 : ℚ)/5 < 3/4 ∧
    (((similarity_search envOk loadedState "q" 5 (3/4)).1).Sublist
       ((similarity_search envOk loadedState "q" 5 (2/5)).1) ∧
     ∀ r ∈ (similarity_search envOk loadedState "q" 5 (3/4)).1,
       r ∈ (similarity_search envOk loadedState "q" 5 (2/5)).1) :=
  ⟨by norm_num,
   similarity_search_threshold_monotone envOk loadedState "q" 5 (by norm_num)⟩

/-- C10: `load` unconditionally creates the configured vector-store
directory (via `ensure_vector_store_path`) before checking for the
artifacts; consequently a `similarity_search` against an absent index
returns `[]` but leaves a newly created directory behind. -/
theorem load_creates_directory_side_effect (env : Env) (s : SysState)
    (query : String) (k : Nat) (t : ℚ) :
    (load env s).2.dirExists = true ∧
    (s.mem = none → s.faissPresent = false → s.pklPresent = false →
      s.dirExists = false →
      (similarity_search env s query k t).1 = [] ∧
      (similarity_search env s query k t).2.dirExists = true) := by
  constructor
  · cases hf : s.faissPresent <;> cases hp : s.pklPresent <;>
      cases hl : env.loadFails <;>
      simp [load, ensure_vector_store_path, hf, hp, hl]
  · intro hm hf hp _
    simp [similarity_search, load, ensure_vector_store_path, hm, hf, hp]

/-- Witness for C10: searching from the pristine state returns `[]` and
creates the directory. -/
theorem load_creates_directory_side_effect_witness :
    (load envOk emptyState).2.dirExists = true ∧
    (emptyState.mem = none ∧ emptyState.faissPresent = false ∧
     emptyState.pklPresent = false ∧ emptyState.dirExists = false) ∧
    (similarity_search envOk emptyState "q" 5 (1/2)).1 = [] ∧
    (similarity_search envOk emptyState "q" 5 (1/2)).2.dirExists = true :=
  ⟨(load_creates_directory_side_effect envOk emptyState "q" 5 (1/2)).1,
   ⟨rfl, rfl, rfl, rfl⟩,
   (load_creates_directory_side_effect envOk emptyState "q" 5 (1/2)).2
     rfl rfl rfl rfl⟩

/-- C5: for a chunk size `c` and overlap `o < c`, `get_chunked_documents`
keeps a unit whose text length is at most `2c` intact, as exactly one chunk
equal to the input; a unit with text length above `2c` is split into more
than one chunk — given the splitter contract that every piece is at most
`c` characters and the pieces cover the source text — and every chunk
carries the parent unit's metadata plus a 0-based `chunk_index` below
`total_chunks`, the number of produced chunks. -/
theorem get_chunked_documents_small_intact_large_split
    (splitText : String → List String) (c o : Nat) (ho : o < c)
    (doc : Doc) :
    (doc.page_content.length ≤ c * 2 →
      get_chunked_documents splitText c [doc] = [doc]) ∧
    (c * 2 < doc.page_content.length →
      (∀ p ∈ splitText doc.page_content, p.length ≤ c) →
      doc.page_content.length ≤
        ((splitText doc.page_content).map String.length).sum →
      1 < (get_chunked_documents splitText c [doc]).length ∧
      ∀ r ∈ get_chunked_documents splitText c [doc],
        ∃ i < (splitText doc.page_content).length,
          r.metadata = doc.metadata ++
            [("chunk_index", MetaVal.nat i),
             ("total_chunks",
               MetaVal.nat (splitText doc.page_content).length),
             ("is_chunked", MetaVal.bool true)]) := by
  have hc : 0 < c := lt_of_le_of_lt (Nat.zero_le o) ho
  constructor
  · intro h
    simp [get_chunked_documents, h]
  · intro h hpieces hcover
    have hne : get_chunked_documents splitText c [doc] =
        (splitText doc.page_content).enum.map (fun ic =>
          { page_content := ic.2
            metadata := doc.metadata ++
              [("chunk_index", MetaVal.nat ic.1),
               ("total_chunks",
                 MetaVal.nat (splitText doc.page_content).length),
               ("is_chunked", MetaVal.bool true)] }) := by
      simp [get_chunked_documents, not_le.mpr h]
    constructor
    · rw [hne, List.length_map, List.enum_length]
      rcases hsp : splitText doc.page_content with _ | ⟨p, _ | ⟨q, rest⟩⟩
      · rw [hsp] at hcover
        simp at hcover
        omega
      · rw [hsp] at hcover hpieces
        have hp := hpieces p (by simp)
        simp at hcover
        omega
      · simp
    · rw [hne]
      intro r hr
      simp only [List.mem_map] at hr
      obtain ⟨ic, hic, rfl⟩ := hr
      have hlt : ic.1 < (splitText doc.page_content).length := by
        rw [List.mem_enum_iff_getElem?] at hic
        rcases List.getElem?_eq_some.mp hic with ⟨hl, _⟩
        exact hl
      exact ⟨ic.1, hlt, rfl⟩

/-- A sample splitter response obeying the contract for chunk size 4 on the
ten-character text of `docLarge`. -/
def splitTextW : String → List String :=
  fun _ => ["0123", "3456", "6789"]

/-- A unit small enough to stay intact at chunk size 4. -/
def docSmall : Doc :=
  { page_content := "abc", metadata := [("source", MetaVal.str "s.xlsx")] }

/-- A unit longer than twice the chunk size 4. -/
def docLarge : Doc :=
  { page_content := "0123456789"
    metadata := [("source", MetaVal.str "s.xlsx")] }

/-- Witness for C5 at chunk size 4, overlap 1: the three-character unit is
kept intact and the ten-character unit splits into the three pieces of
`splitTextW`, each carrying `chunk_index` and `total_chunks`. -/
theorem get_chunked_documents_small_intact_large_split_witness :
    (1 : Nat) < 4 ∧ docSmall.page_content.length ≤ 4 * 2 ∧
    get_chunked_documents splitTextW 4 [docSmall] = [docSmall] ∧
    (4 * 2 < docLarge.page_content.length ∧
     (∀ p ∈ splitTextW docLarge.page_content, p.length ≤ 4) ∧
     docLarge.page_content.length ≤
       ((splitTextW docLarge.page_content).map String.length).sum) ∧
    1 < (get_chunked_documents splitTextW 4 [docLarge]).length ∧
    ∀ r ∈ get_chunked_documents splitTextW 4 [docLarge],
      ∃ i < (splitTextW docLarge.page_content).length,
        r.metadata = docLarge.metadata ++
          [("chunk_index", MetaVal.nat i),
           ("total_chunks",
             MetaVal.nat (splitTextW docLarge.page_content).length),
           ("is_chunked", MetaVal.bool true)] :=
  ⟨by decide, by decide,
   (get_chunked_documents_small_intact_large_split splitTextW 4 1
      (by decide) docSmall).1 (by decide),
   ⟨by decide, by decide, by decide⟩,
   (get_chunked_documents_small_intact_large_split splitTextW 4 1
      (by decide) docLarge).2 (by decide) (by decide) (by decide)⟩

/-- C6: starting without persisted artifacts and with no external failures,
calling `create_or_update` twice with the same non-empty document list
duplicates every chunk: both calls return normally and the persisted index
afterwards holds the split chunks twice — `2 * len(documents)` entries when
the splitter returns one chunk per document.  No deduplication happens. -/
theorem create_or_update_twice_duplicates (env : Env) (s : SysState)
    (documents : List Doc) (hne : documents ≠ [])
    (hsplit : (env.splitDocs documents).length = documents.length)
    (hemb : env.embedFails = false) (hload : env.loadFails = false)
    (habs : (s.faissPresent && s.pklPresent) = false) :
    (create_or_update env s documents).2 = none ∧
    (create_or_update env (create_or_update env s documents).1
        documents).2 = none ∧
    (create_or_update env (create_or_update env s documents).1
        documents).1.stored =
      env.splitDocs documents ++ env.splitDocs documents ∧
    (create_or_update env (create_or_update env s documents).1
        documents).1.stored.length = 2 * documents.length := by
  have hlen : documents.length ≠ 0 := by
    intro h0
    exact hne (List.length_eq_zero.mp h0)
  have hchunks : (env.splitDocs documents).isEmpty = false := by
    cases hsp : env.splitDocs documents with
    | nil =>
        rw [hsp] at hsplit
        simp at hsplit
        omega
    | cons a l => rfl
  have h1 : create_or_update env s documents =
      ({ dirExists := true, faissPresent := true, pklPresent := true,
         stored := env.splitDocs documents,
         mem := some (env.splitDocs documents) }, none) := by
    simp [create_or_update, _create_new_vector_store,
          ensure_vector_store_path, habs, hemb, hchunks]
  have h3 : create_or_update env (create_or_update env s documents).1
      documents =
      ({ dirExists := true, faissPresent := true, pklPresent := true,
         stored := env.splitDocs documents ++ env.splitDocs documents,
         mem := some (env.splitDocs documents ++ env.splitDocs documents) },
       none) := by
    rw [h1]
    simp [create_or_update, load, ensure_vector_store_path, hemb, hload]
  refine ⟨by rw [h1], by rw [h3], by rw [h3], ?_⟩
  rw [h3]
  simp only [List.length_append, hsplit]
  omega

/-- Witness for C6 on a two-document list starting from the pristine
state. -/
theorem create_or_update_twice_duplicates_witness :
    ([docVendite, docClienti] ≠ ([] : List Doc)) ∧
    (envOk.splitDocs [docVendite, docClienti]).length =
      [docVendite, docClienti].length ∧
    envOk.embedFails = false ∧ envOk.loadFails = false ∧
    (emptyState.faissPresent && emptyState.pklPresent) = false ∧
    ((create_or_update envOk emptyState [docVendite, docClienti]).2 = none ∧
     (create_or_update envOk
        (create_or_update envOk emptyState [docVendite, docClienti]).1
        [docVendite, docClienti]).2 = none ∧
     (create_or_update envOk
        (create_or_update envOk emptyState [docVendite, docClienti]).1
        [docVendite, docClienti]).1.stored =
       envOk.splitDocs [docVendite, docClienti] ++
         envOk.splitDocs [docVendite, docClienti] ∧
     (create_or_update envOk
        (create_or_update envOk emptyState [docVendite, docClienti]).1
        [docVendite, docClienti]).1.stored.length =
       2 * [docVendite, docClienti].length) :=
  ⟨by decide, rfl, rfl, rfl, rfl,
   create_or_update_twice_duplicates envOk emptyState
     [docVendite, docClienti] (by decide) rfl rfl rfl rfl⟩

/-- C1 counterexample: from the pristine state, `create_or_update([])` is
not a no-op.  When the external index library accepts an empty batch, both
artifacts are created where none existed; when it rejects the empty batch,
the exception escapes the call; in both runs the vector-store directory is
newly created. -/
theorem create_or_update_empty_not_noop_counterexample :
    (create_or_update envOk emptyState []).1.faissPresent = true ∧
    (create_or_update envOk emptyState []).1.pklPresent = true ∧
    (create_or_update envOk emptyState []).1.dirExists = true ∧
    emptyState.faissPresent = false ∧ emptyState.pklPresent = false ∧
    emptyState.dirExists = false ∧
    (create_or_update envRejectEmpty emptyState []).2 = some "IndexError" ∧
    (create_or_update envRejectEmpty emptyState []).1.dirExists = true := by
  decide

/-- C1 (amended): `create_or_update([])` is not a no-op.  It always creates
the vector-store directory; when no artifact pair exists it attempts to
build a new index from zero chunks — persisting fresh empty artifacts when
the external library accepts an empty batch, otherwise letting the
library's error escape with the artifacts untouched; when both artifacts
exist it reloads and re-saves the index, returning normally with the
persisted logical content unchanged (though both artifact files are
rewritten by `save_local`). -/
theorem create_or_update_empty_effects (env : Env) (s : SysState)
    (hemb : env.embedFails = false) (hsplit : env.splitDocs [] = []) :
    (create_or_update env s []).1.dirExists = true ∧
    ((s.faissPresent && s.pklPresent) = false →
      env.emptyFromDocsFails = false →
      (create_or_update env s []).2 = none ∧
      (create_or_update env s []).1.faissPresent = true ∧
      (create_or_update env s []).1.pklPresent = true ∧
      (create_or_update env s []).1.stored = []) ∧
    ((s.faissPresent && s.pklPresent) = false →
      env.emptyFromDocsFails = true →
      (create_or_update env s []).2 = some "IndexError" ∧
      (create_or_update env s []).1.faissPresent = s.faissPresent ∧
      (create_or_update env s []).1.pklPresent = s.pklPresent) ∧
    ((s.faissPresent && s.pklPresent) = true → env.loadFails = false →
      (create_or_update env s []).2 = none ∧
      (create_or_update env s []).1.stored = s.stored) := by
  refine ⟨?_, ?_, ?_, ?_⟩
  · cases hf : s.faissPresent <;> cases hp : s.pklPresent <;>
      cases hl : env.loadFails <;> cases hef : env.emptyFromDocsFails <;>
      simp [create_or_update, _create_new_vector_store, load,
            ensure_vector_store_path, hemb, hsplit, hf, hp, hl, hef]
  · intro hfp hef
    simp [create_or_update, _create_new_vector_store,
          ensure_vector_store_path, hemb, hsplit, hfp, hef]
  · intro hfp hef
    simp [create_or_update, _create_new_vector_store,
          ensure_vector_store_path, hemb, hsplit, hfp, hef]
  · intro hfp hl
    simp [create_or_update, load, ensure_vector_store_path, hemb, hsplit,
          hfp, hl]

/-- Witness for C1 (amended) covering the accepting-library and
rejecting-library runs from the pristine state and the re-save run from a
loaded state. -/
theorem create_or_update_empty_effects_witness :
    envOk.embedFails = false ∧ envOk.splitDocs [] = [] ∧
    (create_or_update envOk emptyState []).1.dirExists = true ∧
    ((create_or_update envOk emptyState []).2 = none ∧
     (create_or_update envOk emptyState []).1.faissPresent = true ∧
     (create_or_update envOk emptyState []).1.pklPresent = true ∧
     (create_or_update envOk emptyState []).1.stored = []) ∧
    ((create_or_update envRejectEmpty emptyState []).2 =
        some "IndexError" ∧
     (create_or_update envRejectEmpty emptyState []).1.faissPresent =
        emptyState.faissPresent ∧
     (create_or_update envRejectEmpty emptyState []).1.pklPresent =
        emptyState.pklPresent) ∧
    ((create_or_update envOk bothArtifactsState []).2 = none ∧
     (create_or_update envOk bothArtifactsState []).1.stored =
       bothArtifactsState.stored) :=
  ⟨rfl, rfl,
   (create_or_update_empty_effects envOk emptyState rfl rfl).1,
   (create_or_update_empty_effects envOk emptyState rfl rfl).2.1 rfl rfl,
   (create_or_update_empty_effects envRejectEmpty emptyState rfl
      rfl).2.2.1 rfl rfl,
   (create_or_update_empty_effects envOk bothArtifactsState rfl
      rfl).2.2.2 rfl rfl⟩

/-- C2 counterexample: with the embedding gateway failing, a
`create_or_update` call from the pristine state lets the exception escape
(second component `some …`) instead of converting it into a sentinel
return value. -/
theorem create_or_update_gateway_failure_escapes :
    (create_or_update envEmbedFail emptyState [docVendite]).2 =
      some "EmbeddingProviderError" := by
  decide

/-- C2 (amended): `similarity_search` converts an embedding-gateway
failure into the sentinel `[]`, but `create_or_update` catches, logs and
then re-raises it, so the exception escapes to the caller in every state
(and its normal return carries no value, not `False`). -/
theorem gateway_failure_sentinel_vs_reraise (env : Env) (s : SysState)
    (documents : List Doc) (query : String) (k : Nat) (t : ℚ) :
    (env.searchFails = true →
      (similarity_search env s query k t).1 = []) ∧
    (env.embedFails = true →
      (create_or_update env s documents).2 =
        some "EmbeddingProviderError") := by
  constructor
  · intro hs
    rw [similarity_search_fst]
    simp [hs]
  · intro he
    cases hf : s.faissPresent <;> cases hp : s.pklPresent <;>
      cases hl : env.loadFails <;>
      simp [create_or_update, _create_new_vector_store, load,
            ensure_vector_store_path, hf, hp, hl, he]

/-- Witness for C2 (amended): the read path degrades to `[]` while the
write path propagates the gateway failure. -/
theorem gateway_failure_sentinel_vs_reraise_witness :
    envSearchFail.searchFails = true ∧
    (similarity_search envSearchFail loadedState "q" 5 (1/2)).1 = [] ∧
    envEmbedFail.embedFails = true ∧
    (create_or_update envEmbedFail loadedState [docVendite]).2 =
      some "EmbeddingProviderError" :=
  ⟨rfl,
   (gateway_failure_sentinel_vs_reraise envSearchFail loadedState
      [docVendite] "q" 5 (1/2)).1 rfl,
   rfl,
   (gateway_failure_sentinel_vs_reraise envEmbedFail loadedState
      [docVendite] "q" 5 (1/2)).2 rfl⟩

/-- C9 counterexample: the pre-initialization answer is the fixed Italian
message `"Errore: Il sistema RAG non è pronto."` with empty sources — it
is not of the form `"Error: ..."`. -/
theorem answer_question_uninitialized_not_english_error :
    (answer_question chainEnvOk false "Qual è il fatturato?").answer =
      "Errore: Il sistema RAG non è pronto." ∧
    strHasPrefix "Error:"
      (answer_question chainEnvOk false "Qual è il fatturato?").answer
      = false ∧
    (answer_question chainEnvOk false "Qual è il fatturato?").sources
      = [] := by
  decide

/-- C9 (amended): `answer_question` never raises (the embedding is total);
before a successful `initialize` it returns the fixed answer
`"Errore: Il sistema RAG non è pronto."` with empty sources, and on a
failure during retrieval or generation it returns the Italian apology
message carrying the exception text, again with empty sources. -/
theorem answer_question_error_answers (env : ChainEnv)
    (question : String) :
    answer_question env false question =
      { answer := "Errore: Il sistema RAG non è pronto.", sources := [] } ∧
    (env.qaFails = true →
      answer_question env true question =
        { answer := "Mi dispiace, si è verificato un errore durante l'elaborazione della tua domanda: "
            ++ env.qaError
          sources := [] }) := by
  constructor
  · rfl
  · intro h
    simp [answer_question, h]

/-- Witness for C9 (amended) at a failing QA chain. -/
theorem answer_question_error_answers_witness :
    chainEnvFail.qaFails = true ∧
    answer_question chainEnvFail true "q" =
      { answer := "Mi dispiace, si è verificato un errore durante l'elaborazione della tua domanda: rate limit"
        sources := [] } :=
  ⟨rfl, by
    rw [(answer_question_error_answers chainEnvFail "q").2 rfl]
    decide⟩

end RagExcel
